import Mathlib

/-!
Shallow embedding of `doc/_extensions/zephyr/boardselector/static/boardselector.mjs`
(the Kconfig search engine and the `checkbox_select` filter-chip widget), with
theorems checking the natural-language specification against it.

Conventions of the embedding:
* A dataset record is reduced to the fields the search engine inspects
  (only `entry.name` is read by `doSearch`); the rest of a record is opaque
  to the engine and is therefore not modelled.
* The host regular-expression engine (`new RegExp(value, 'i')` followed by
  `name.match(pattern)`) is modelled as a parameter
  `build : String → Except String (String → Bool)`: constructing a pattern
  either throws a `SyntaxError` (the `Except.error` case) or yields a
  matcher on names.  `doSearch` itself contains no `try`/`catch`, so a
  construction error propagates out of the embedded function unchanged.
* The DOM nodes written by `doSearch` (summary text node, results container,
  navigation buttons, page text) are modelled as a `Display` record that the
  function updates; fields it does not assign keep their previous value,
  exactly as the real DOM does.
-/

set_option autoImplicit false

/-- One entry of the `kconfig.json` database; `doSearch` only ever reads
its `name` field. -/
structure Entry where
  name : String
deriving DecidableEq, Repr

/-- Constant `MAX_RESULTS` from the source (page size, 10). -/
def MAX_RESULTS : Nat := 10

/-- Module-level search state: `input.value` (the text box content),
`searchOffset`, and the loaded database `db`. -/
structure SearchState where
  value : String
  searchOffset : Int
  db : List Entry
deriving Repr

/-- The DOM written by `doSearch`: the replaced history entry, the summary
text node, the rendered result entries, and the navigation widgets. -/
structure Display where
  historyValue : String
  historyOffset : Int
  summary : String
  resultsShown : List Entry
  navVisible : Bool
  prevDisabled : Bool
  nextDisabled : Bool
  currentPage : Int
  totalPages : Nat
deriving Repr

/-- The filter callback of `doSearch` with its captured mutable `count`:
`db.filter(entry => { if (entry.name.match(pattern)) { count++; if (count >
searchOffset && count <= searchOffset + MAX_RESULTS) return true; } return
false; })`.  The accumulator `k` is the value of `count` before the current
element is examined; the function returns the kept entries together with the
final value of `count`. -/
def scanFilter (p : String → Bool) (off : Int) : List Entry → Nat → List Entry × Nat
  | [], k => ([], k)
  | e :: l, k =>
    if p e.name then
      let r := scanFilter p off l (k + 1)
      (if ((k + 1 : Int) > off ∧ (k + 1 : Int) ≤ off + (MAX_RESULTS : Int))
        then e :: r.1 else r.1, r.2)
    else scanFilter p off l k

/-- Embedding of `doSearch`.  Returns the updated display together with
`some err` when the `RegExp` constructor threw (the exception escapes the
function, so everything after the construction site is skipped and the
display keeps its pre-call content except for the already-replaced history
entry). -/
def doSearch (build : String → Except String (String → Bool))
    (st : SearchState) (d : Display) : Display × Option String :=
  let d := { d with historyValue := st.value, historyOffset := st.searchOffset }
  if st.value = "" then
    ({ d with summary := "", resultsShown := [], navVisible := false }, none)
  else
    match build st.value with
    | .error err => (d, some err)
    | .ok pat =>
      let r := scanFilter pat st.searchOffset st.db 0
      ({ d with
          summary := toString r.2 ++ " options match your search.",
          navVisible := true,
          prevDisabled := decide (st.searchOffset - (MAX_RESULTS : Int) < 0),
          nextDisabled := decide (st.searchOffset + (MAX_RESULTS : Int) > (r.2 : Int)),
          currentPage := Int.fdiv st.searchOffset (MAX_RESULTS : Int) + 1,
          totalPages := r.2 / MAX_RESULTS + 1,
          resultsShown := r.1 }, none)

/-- Character class `[A-Za-z0-9_]` of the sanitizing regular expression in
`doSearchFromURL`. -/
def isWordChar (c : Char) : Bool :=
  (('A' ≤ c ∧ c ≤ 'Z') ∨ ('a' ≤ c ∧ c ≤ 'z') ∨ ('0' ≤ c ∧ c ≤ '9') ∨ c = '_')

/-- Effect of `rawOption.replace(/[^A-Za-z0-9_]+/g, '')`: every maximal run
of characters outside the class is replaced by nothing, i.e. every character
outside the class is deleted. -/
def stripNonWord (s : String) : String := String.mk (s.data.filter isWordChar)

/-- Embedding of `doSearchFromURL`.  `frag` is `window.location.hash`
without its leading `#`.  Returns the new search state, the new display and
a possible escaped exception; when the fragment is empty the handler
returns immediately and nothing changes. -/
def doSearchFromURL (build : String → Except String (String → Bool))
    (frag : String) (st : SearchState) (d : Display) :
    SearchState × Display × Option String :=
  if frag = "" then (st, d, none)
  else
    let opt := stripNonWord frag
    let st := { st with value := "^" ++ opt ++ "$", searchOffset := 0 }
    let r := doSearch build st d
    (st, r.1, r.2)

/-- Embedding of the `keyup` listener installed on the search input:
`input.addEventListener('keyup', () => { searchOffset = 0; doSearch(); })`.
`st.value` is the content of the input after the edit. -/
def onKeyup (build : String → Except String (String → Bool))
    (st : SearchState) (d : Display) : SearchState × Display × Option String :=
  let st := { st with searchOffset := 0 }
  let r := doSearch build st d
  (st, r.1, r.2)

/-- Predicate checked by each record: its name matches the compiled pattern. -/
def entryMatches (p : String → Bool) (e : Entry) : Bool := p e.name

/-- Running count of `scanFilter`: the final `count` is the starting count
plus the number of matching entries, regardless of the offset. -/
theorem scanFilter_count (p : String → Bool) (off : Int) :
    ∀ (l : List Entry) (k : Nat),
      (scanFilter p off l k).2 = k + (l.filter (entryMatches p)).length := by
  intro l
  induction l with
  | nil => intro k; simp [scanFilter]
  | cons e l ih =>
    intro k
    by_cases h : p e.name
    · simp [scanFilter, h, entryMatches, ih, Nat.add_comm, Nat.add_assoc,
        Nat.add_left_comm]
    · simp [scanFilter, h, entryMatches, ih]

/-- Kept entries of `scanFilter`: starting the scan with `count = k`, the
entries that pass the window test `count > offset && count <= offset +
MAX_RESULTS` are exactly the window `[offset - k, offset - k + remaining
budget)` of the filtered list, expressed with truncated subtraction. -/
theorem scanFilter_window (p : String → Bool) (o : Nat) :
    ∀ (l : List Entry) (k : Nat),
      (scanFilter p (o : Int) l k).1 =
        ((l.filter (entryMatches p)).drop (o - k)).take (MAX_RESULTS - (k - o)) := by
  intro l
  induction l with
  | nil => intro k; simp [scanFilter]
  | cons e l ih =>
    intro k
    by_cases h : p e.name
    · have hf : (e :: l).filter (entryMatches p) = e :: l.filter (entryMatches p) := by
        simp [entryMatches, h]
      rw [hf]
      simp only [scanFilter, h, if_true]
      split
      · rename_i hc
        have hk1 : o ≤ k := by omega
        have hk2 : k + 1 ≤ o + MAX_RESULTS := by omega
        rw [ih]
        have e1 : o - k = 0 := by omega
        have e2 : o - (k + 1) = 0 := by omega
        have e3 : MAX_RESULTS - (k - o) = (MAX_RESULTS - (k + 1 - o)) + 1 := by omega
        rw [e1, e2, e3, List.drop_zero, List.drop_zero, List.take_succ_cons]
      · rename_i hc
        have hn : k < o ∨ o + MAX_RESULTS ≤ k := by omega
        rw [ih]
        rcases hn with hn | hn
        · have e1 : o - k = (o - (k + 1)) + 1 := by omega
          have e2 : MAX_RESULTS - (k + 1 - o) = MAX_RESULTS - (k - o) := by omega
          rw [e1, e2, List.drop_succ_cons]
        · have e1 : MAX_RESULTS - (k - o) = 0 := by omega
          have e2 : MAX_RESULTS - (k + 1 - o) = 0 := by omega
          rw [e1, e2]
          simp
    · simp only [scanFilter, h]
      have hf : (e :: l).filter (entryMatches p) = l.filter (entryMatches p) := by
        simp [entryMatches, h]
      rw [if_neg (by simp [h]), hf, ih]

/-- Full description of the successful search path: with a nonempty term,
a pattern that compiled, and a non-negative offset, `doSearch` throws
nothing and writes every display field as the code computes it, with the
one-pass `scanFilter` results rewritten through `filter`/`drop`/`take`. -/
theorem doSearch_ok_spec (build : String → Except String (String → Bool))
    (pat : String → Bool) (st : SearchState) (d : Display) (o : Nat)
    (hoff : st.searchOffset = (o : Int)) (hval : ¬ st.value = "")
    (hbuild : build st.value = .ok pat) :
    doSearch build st d =
      ({ d with
          historyValue := st.value,
          historyOffset := (o : Int),
          summary := toString (st.db.filter (entryMatches pat)).length ++
            " options match your search.",
          navVisible := true,
          prevDisabled := decide ((o : Int) - (MAX_RESULTS : Int) < 0),
          nextDisabled := decide ((o : Int) + (MAX_RESULTS : Int) >
            ((st.db.filter (entryMatches pat)).length : Int)),
          currentPage := ((o / MAX_RESULTS : Nat) : Int) + 1,
          totalPages := (st.db.filter (entryMatches pat)).length / MAX_RESULTS + 1,
          resultsShown := ((st.db.filter (entryMatches pat)).drop o).take MAX_RESULTS },
        none) := by
  have hw := scanFilter_window pat o st.db 0
  have hc := scanFilter_count pat (o : Int) st.db 0
  simp only [Nat.sub_zero, Nat.zero_sub] at hw
  simp only [Nat.zero_add] at hc
  have hfd : Int.fdiv ((o : Nat) : Int) ((MAX_RESULTS : Nat) : Int) =
      ((o / MAX_RESULTS : Nat) : Int) := (Int.ofNat_fdiv o MAX_RESULTS).symm
  simp [doSearch, hval, hbuild, hoff, hw, hc, hfd]

/-- Pattern accepting every name (used as a concrete compiled regular
expression in witnesses). -/
def patAll : String → Bool := fun _ => true

/-- Host model in which every pattern construction succeeds and matches
every name. -/
def buildAll : String → Except String (String → Bool) := fun _ => .ok patAll

/-- Host model in which pattern construction throws a `SyntaxError`, as the
JavaScript `RegExp` constructor does on an unbalanced parenthesis. -/
def buildErr : String → Except String (String → Bool) :=
  fun _ => .error "SyntaxError: Invalid regular expression"

/-- Display fixture with stale content from an earlier render. -/
def d0 : Display :=
  { historyValue := "old", historyOffset := 3, summary := "old summary",
    resultsShown := [{ name := "STALE" }], navVisible := false,
    prevDisabled := true, nextDisabled := true, currentPage := 1, totalPages := 1 }

/-- Dataset fixture of 25 identical matching records. -/
def db25 : List Entry := List.replicate 25 { name := "CONFIG_A" }

/-- Small dataset fixture. -/
def db3 : List Entry := [{ name := "A" }, { name := "B" }, { name := "C" }]

/-- Search state fixture: term `CONFIG`, offset 20, 25-record database. -/
def st25c : SearchState := { value := "CONFIG", searchOffset := 20, db := db25 }

/-- Search state fixture: term `CONFIG`, offset 0, 25-record database. -/
def st25a : SearchState := { value := "CONFIG", searchOffset := 0, db := db25 }

/-- Search state fixture used by the hash-sync scenarios. -/
def stUrl : SearchState := { value := "CONFIG", searchOffset := 7, db := db3 }

/-- C1: for every dataset, compiled term and non-negative offset, `doSearch`
returns exactly the matching records whose zero-based rank among all matches
lies in `[offset, offset + MAX_RESULTS)`, and reports as total count the
number of all matching records before pagination; both values come out of
the single `scanFilter` pass over the dataset. -/
theorem doSearch_window_and_total (build : String → Except String (String → Bool))
    (pat : String → Bool) (st : SearchState) (d : Display) (o : Nat)
    (hoff : st.searchOffset = (o : Int)) (hval : ¬ st.value = "")
    (hbuild : build st.value = .ok pat) :
    (doSearch build st d).2 = none ∧
    (doSearch build st d).1.resultsShown =
      ((st.db.filter (entryMatches pat)).drop o).take MAX_RESULTS ∧
    (doSearch build st d).1.summary =
      toString (st.db.filter (entryMatches pat)).length ++
        " options match your search." := by
  rw [doSearch_ok_spec build pat st d o hoff hval hbuild]
  exact ⟨rfl, rfl, rfl⟩

/-- Witness for C1 at offset 20 over the 25-record dataset: no exception,
the shown records are ranks 20–24 of the match list, and the reported count
is the full 25. -/
theorem doSearch_window_and_total_witness :
    (doSearch buildAll st25c d0).2 = none ∧
    (doSearch buildAll st25c d0).1.resultsShown =
      ((st25c.db.filter (entryMatches patAll)).drop 20).take MAX_RESULTS ∧
    (doSearch buildAll st25c d0).1.summary =
      toString (st25c.db.filter (entryMatches patAll)).length ++
        " options match your search." :=
  doSearch_window_and_total buildAll patAll st25c d0 20 rfl (by decide) rfl

/-- C6: after a search with a nonempty term, the previous-page button is
disabled exactly when `offset - MAX_RESULTS < 0` and the next-page button is
disabled exactly when `offset + MAX_RESULTS` exceeds the total match count. -/
theorem doSearch_nav_flags (build : String → Except String (String → Bool))
    (pat : String → Bool) (st : SearchState) (d : Display)
    (hval : ¬ st.value = "") (hbuild : build st.value = .ok pat) :
    ((doSearch build st d).1.prevDisabled = true ↔
      st.searchOffset - (MAX_RESULTS : Int) < 0) ∧
    ((doSearch build st d).1.nextDisabled = true ↔
      st.searchOffset + (MAX_RESULTS : Int) >
        ((st.db.filter (entryMatches pat)).length : Int)) := by
  have hc := scanFilter_count pat st.searchOffset st.db 0
  simp only [Nat.zero_add] at hc
  simp [doSearch, hval, hbuild, hc]

/-- Witness for C6 over a 25-match dataset with page size 10: at offset 0
the previous button is disabled and the next button enabled; at offset 20
the previous button is enabled and the next button disabled. -/
theorem doSearch_nav_flags_witness :
    (doSearch buildAll st25a d0).1.prevDisabled = true ∧
    ¬ (doSearch buildAll st25a d0).1.nextDisabled = true ∧
    ¬ (doSearch buildAll st25c d0).1.prevDisabled = true ∧
    (doSearch buildAll st25c d0).1.nextDisabled = true := by
  have h1 := doSearch_nav_flags buildAll patAll st25a d0 (by decide) rfl
  have h2 := doSearch_nav_flags buildAll patAll st25c d0 (by decide) rfl
  refine ⟨h1.1.mpr (by decide), ?_, ?_, h2.2.mpr (by decide)⟩
  · rw [h1.2]; decide
  · rw [h2.1]; decide

/-- C7: for every non-negative offset that is a multiple of the page size
and every resulting total count, the displayed current page is
`floor(offset / MAX_RESULTS) + 1` and the displayed total page count is
`floor(totalCount / MAX_RESULTS) + 1`, so a count that is an exact multiple
of the page size yields one extra, possibly empty, trailing page. -/
theorem doSearch_page_numbers (build : String → Except String (String → Bool))
    (pat : String → Bool) (st : SearchState) (d : Display) (o : Nat)
    (hoff : st.searchOffset = (o : Int)) (_hmul : o % MAX_RESULTS = 0)
    (hval : ¬ st.value = "") (hbuild : build st.value = .ok pat) :
    (doSearch build st d).1.currentPage = ((o / MAX_RESULTS : Nat) : Int) + 1 ∧
    (doSearch build st d).1.totalPages =
      (st.db.filter (entryMatches pat)).length / MAX_RESULTS + 1 := by
  rw [doSearch_ok_spec build pat st d o hoff hval hbuild]
  exact ⟨rfl, rfl⟩

/-- Witness for C7 at offset 20 with 25 matches: page 3 of 3; and at offset
0 over a 20-match dataset (an exact multiple of the page size): the total
page count is the extra trailing page 3. -/
theorem doSearch_page_numbers_witness :
    ((doSearch buildAll st25c d0).1.currentPage = ((20 / MAX_RESULTS : Nat) : Int) + 1 ∧
      (doSearch buildAll st25c d0).1.totalPages =
        (st25c.db.filter (entryMatches patAll)).length / MAX_RESULTS + 1) ∧
    (doSearch buildAll st25c d0).1.currentPage = 3 ∧
    (doSearch buildAll st25c d0).1.totalPages = 3 := by
  have h := doSearch_page_numbers buildAll patAll st25c d0 20 rfl (by decide)
    (by decide) rfl
  refine ⟨h, ?_, ?_⟩
  · rw [h.1]; decide
  · rw [h.2]; decide

/-- C8: an empty search term matches nothing — for every dataset and offset
the result list is cleared, the summary text is emptied and the navigation
is hidden, instead of the whole dataset being returned. -/
theorem doSearch_empty_term (build : String → Except String (String → Bool))
    (st : SearchState) (d : Display) (hval : st.value = "") :
    (doSearch build st d).2 = none ∧
    (doSearch build st d).1.summary = "" ∧
    (doSearch build st d).1.resultsShown = [] ∧
    (doSearch build st d).1.navVisible = false := by
  simp [doSearch, hval]

/-- Search state fixture with an empty term over a nonempty dataset. -/
def stEmpty : SearchState := { value := "", searchOffset := 5, db := db25 }

/-- Witness for C8: an empty term over the nonempty 25-record dataset
clears the summary, the results and the navigation. -/
theorem doSearch_empty_term_witness :
    (doSearch buildAll stEmpty d0).2 = none ∧
    (doSearch buildAll stEmpty d0).1.summary = "" ∧
    (doSearch buildAll stEmpty d0).1.resultsShown = [] ∧
    (doSearch buildAll stEmpty d0).1.navVisible = false :=
  doSearch_empty_term buildAll stEmpty d0 rfl

/-- C2 (violated by the code): `doSearch` calls `new RegExp(input.value, 'i')`
with no `try`/`catch`, so when the pattern constructor throws, the exception
escapes the function and rendering is aborted: the summary, the result list
and the navigation keep their stale content from the previous render. -/
theorem doSearch_invalid_regex_throws (build : String → Except String (String → Bool))
    (st : SearchState) (d : Display) (err : String)
    (hval : ¬ st.value = "") (hbuild : build st.value = .error err) :
    (doSearch build st d).2 = some err ∧
    (doSearch build st d).1.summary = d.summary ∧
    (doSearch build st d).1.resultsShown = d.resultsShown ∧
    (doSearch build st d).1.navVisible = d.navVisible := by
  simp [doSearch, hval, hbuild]

/-- Search state fixture whose term is the invalid regular expression `(`. -/
def stBad : SearchState := { value := "(", searchOffset := 0, db := db25 }

/-- Witness for C2: with the term `(`, whose construction throws a
`SyntaxError` in the host, the exception escapes `doSearch` and the stale
display content of `d0` is left in place. -/
theorem doSearch_invalid_regex_throws_witness :
    (doSearch buildErr stBad d0).2 = some "SyntaxError: Invalid regular expression" ∧
    (doSearch buildErr stBad d0).1.summary = d0.summary ∧
    (doSearch buildErr stBad d0).1.resultsShown = d0.resultsShown ∧
    (doSearch buildErr stBad d0).1.navVisible = d0.navVisible :=
  doSearch_invalid_regex_throws buildErr stBad d0
    "SyntaxError: Invalid regular expression" (by decide) rfl

/-- C10: the `keyup` listener resets the pagination offset to zero before
re-running the query, so after any text edit the rendered window is the
first page of the new match list. -/
theorem onKeyup_resets_offset (build : String → Except String (String → Bool))
    (pat : String → Bool) (st : SearchState) (d : Display)
    (hval : ¬ st.value = "") (hbuild : build st.value = .ok pat) :
    (onKeyup build st d).1.searchOffset = 0 ∧
    (onKeyup build st d).2.1.resultsShown =
      (st.db.filter (entryMatches pat)).take MAX_RESULTS := by
  have h := doSearch_ok_spec build pat { st with searchOffset := 0 } d 0 rfl
    hval hbuild
  constructor
  · rfl
  · show (doSearch build { st with searchOffset := 0 } d).1.resultsShown = _
    rw [h]
    simp

/-- Witness for C10: a keyup with the view at offset 20 re-runs the search
from offset 0 and shows the first page of the match list. -/
theorem onKeyup_resets_offset_witness :
    (onKeyup buildAll st25c d0).1.searchOffset = 0 ∧
    (onKeyup buildAll st25c d0).2.1.resultsShown =
      (st25c.db.filter (entryMatches patAll)).take MAX_RESULTS :=
  onKeyup_resets_offset buildAll patAll st25c d0 (by decide) rfl

/-- C3 counterexample: the claim quantifies over every URL fragment, but at
the empty fragment the handler returns immediately: the term is left as it
was (here `CONFIG`, not the anchored `^$`) and the offset is not reset. -/
theorem doSearchFromURL_empty_fragment_cex :
    ¬ ((doSearchFromURL buildAll "" stUrl d0).1.value =
        "^" ++ stripNonWord "" ++ "$" ∧
      (doSearchFromURL buildAll "" stUrl d0).1.searchOffset = 0) := by
  decide

/-- C3 amended: for every NONEMPTY URL fragment, the handler strips all
characters outside `[A-Za-z0-9_]`, sets the query term to the remainder
wrapped in `^`/`$` anchors, resets the pagination offset to zero, and
re-runs the query on the updated state; the empty fragment is ignored. -/
theorem doSearchFromURL_nonempty (build : String → Except String (String → Bool))
    (frag : String) (st : SearchState) (d : Display) (hfrag : ¬ frag = "") :
    (doSearchFromURL build frag st d).1.value =
      "^" ++ stripNonWord frag ++ "$" ∧
    (doSearchFromURL build frag st d).1.searchOffset = 0 ∧
    ((doSearchFromURL build frag st d).2.1, (doSearchFromURL build frag st d).2.2) =
      doSearch build
        { st with value := "^" ++ stripNonWord frag ++ "$", searchOffset := 0 } d := by
  simp [doSearchFromURL, hfrag]

/-- Witness for C3 amended, on the two fragments named by the spec:
`FOO_BAR` installs the exact-match term `^FOO_BAR$` and `FOO!!BAR`
sanitizes to `^FOOBAR$`, with the offset reset to zero. -/
theorem doSearchFromURL_nonempty_witness :
    (doSearchFromURL buildAll "FOO_BAR" stUrl d0).1.value = "^FOO_BAR$" ∧
    (doSearchFromURL buildAll "FOO!!BAR" stUrl d0).1.value = "^FOOBAR$" ∧
    (doSearchFromURL buildAll "FOO!!BAR" stUrl d0).1.searchOffset = 0 := by
  have h1 := doSearchFromURL_nonempty buildAll "FOO_BAR" stUrl d0 (by decide)
  have h2 := doSearchFromURL_nonempty buildAll "FOO!!BAR" stUrl d0 (by decide)
  refine ⟨?_, ?_, h2.2.1⟩
  · rw [h1.1]; decide
  · rw [h2.1]; decide

/-- C4 counterexample: the nonempty fragment `!!` consists only of
characters outside `[A-Za-z0-9_]`, yet the handler does NOT treat it as no
search: it installs the exact-match term `^$`, resets the offset to zero
and runs the query against the dataset (the navigation becomes visible and
a match count is reported). -/
theorem doSearchFromURL_all_stripped_cex :
    (doSearchFromURL buildAll "!!" stUrl d0).1.value = "^$" ∧
    (doSearchFromURL buildAll "!!" stUrl d0).1.searchOffset = 0 ∧
    (doSearchFromURL buildAll "!!" stUrl d0).2.1.navVisible = true := by
  decide

/-- C4 amended: only the genuinely empty fragment is treated as no search
(the handler returns with state and display untouched); a nonempty fragment
whose characters are all outside `[A-Za-z0-9_]` instead installs the term
`^$`, resets the offset to zero, and runs the query. -/
theorem doSearchFromURL_no_search_only_empty
    (build : String → Except String (String → Bool))
    (frag : String) (st : SearchState) (d : Display)
    (hne : ¬ frag = "") (hstrip : stripNonWord frag = "") :
    doSearchFromURL build "" st d = (st, d, none) ∧
    (doSearchFromURL build frag st d).1.value = "^$" ∧
    (doSearchFromURL build frag st d).1.searchOffset = 0 ∧
    ((doSearchFromURL build frag st d).2.1, (doSearchFromURL build frag st d).2.2) =
      doSearch build { st with value := "^$", searchOffset := 0 } d := by
  have happ : "^" ++ stripNonWord frag ++ "$" = "^$" := by rw [hstrip]; rfl
  refine ⟨by simp [doSearchFromURL], ?_, ?_, ?_⟩ <;>
    simp [doSearchFromURL, hne, happ]

/-- Witness for C4 amended at the fragment `!!` (nonempty, fully stripped)
and the empty fragment. -/
theorem doSearchFromURL_no_search_only_empty_witness :
    doSearchFromURL buildAll "" stUrl d0 = (stUrl, d0, none) ∧
    (doSearchFromURL buildAll "!!" stUrl d0).1.value = "^$" ∧
    (doSearchFromURL buildAll "!!" stUrl d0).1.searchOffset = 0 ∧
    ((doSearchFromURL buildAll "!!" stUrl d0).2.1,
      (doSearchFromURL buildAll "!!" stUrl d0).2.2) =
      doSearch buildAll { stUrl with value := "^$", searchOffset := 0 } d0 :=
  doSearchFromURL_no_search_only_empty buildAll "!!" stUrl d0
    (by decide) (by decide)

/-- Configuration of one `checkbox_select` widget instance: the derived
`select_name` (the capitalized `name` attribute of the bound select) and
the `conjunctor` word (`params.conjunctor` or the default, a leading-space
`or`). -/
structure WidgetCfg where
  select_name : String
  conjunctor : String
deriving DecidableEq, Repr

/-- JavaScript value stored in `$_submit.data("selected")` and held in
`currently_selected`: either a string (the initial `""`) or an array,
modelled as an allocation identifier together with its contents, because
the JavaScript `!=` on two arrays compares references, not contents. -/
inductive JVal where
  | str : String → JVal
  | arr : Nat → List String → JVal
deriving DecidableEq, Repr

/-- JavaScript loose equality `==` restricted to the values that occur in
the widget: two arrays are compared by reference; an array against a string
is compared after the array is converted with `Array.prototype.toString`,
i.e. its elements joined with commas. -/
def looseEq : JVal → JVal → Bool
  | .str a, .str b => a == b
  | .arr i _, .arr j _ => i == j
  | .arr _ c, .str s => String.intercalate "," c == s
  | .str s, .arr _ c => s == String.intercalate "," c

/-- One checkbox item of the widget list, as built by `createItem`: the
`name` attribute (the option display text), the `value` attribute (the
option value) and its current checked state. -/
structure CheckItem where
  name : String
  value : String
  checked : Bool
deriving DecidableEq, Repr

/-- State of one `checkbox_select` instance: the checkbox list `$_ul`, the
visual expanded state (the `show`/`expanded` classes), the
`currently_selected` array (identifier plus contents), the value stored in
`$_submit.data("selected")`, the anchor text, a counter supplying fresh
array identifiers, and the log of `onApply` invocations (each with the
`selected` contents the callback received). -/
structure Widget where
  items : List CheckItem
  expanded : Bool
  currentId : Nat
  currentlySelected : List String
  submitData : JVal
  anchorText : String
  nextId : Nat
  applyLog : List (List String)
deriving DecidableEq, Repr

/-- Position of the last comma in a character list
(`String.lastIndexOf(",")`). -/
def lastCommaPos (l : List Char) : Option Nat :=
  match l.reverse.indexOf? ',' with
  | none => none
  | some j => some (l.length - 1 - j)

/-- Embedding of the widget-local `updateCurrentlySelected`: collect the
values of the checked inputs in list order into a FRESH array, derive the
display string (upper-cased values joined by `", "`, the trailing
separator dropped, the last comma replaced by the conjunction word), store
the fresh array in `currently_selected`, and set the anchor text according
to how many values are selected. -/
def Widget.updateCurrentlySelected (cfg : WidgetCfg) (w : Widget) : Widget :=
  let selected := (w.items.filter (fun it => it.checked)).map (fun it => it.value)
  let s0 := String.join (selected.map (fun v => v.toUpper ++ ", "))
  let s1 := s0.dropRight 2
  let s2 := match lastCommaPos s1.data with
    | none => s1
    | some i =>
        String.mk (s1.data.take i) ++ cfg.conjunctor ++
          String.mk (s1.data.drop (i + 1))
  let w := { w with
    currentlySelected := selected, currentId := w.nextId, nextId := w.nextId + 1 }
  if selected.length = 0 then { w with anchorText := cfg.select_name }
  else if selected.length = 1 then
    { w with anchorText := s2 ++ " " ++ cfg.select_name }
  else { w with anchorText := s2 ++ " " ++ cfg.select_name ++ "s" }

/-- Embedding of the widget-local `apply`: toggle the expanded state; when
the toggle has just CLOSED the dropdown, compare `currently_selected`
against `$_submit.data("selected")` with JavaScript `!=` and, only when
that comparison says they differ, store the current array and fire
`onApply` with it. -/
def Widget.apply (w : Widget) : Widget :=
  let w := { w with expanded := !w.expanded }
  if w.expanded then w
  else if looseEq (.arr w.currentId w.currentlySelected) w.submitData then w
  else { w with
    submitData := .arr w.currentId w.currentlySelected,
    applyLog := w.applyLog ++ [w.currentlySelected] }

/-- Embedding of `that.update`: empty `$_ul`, rebuild one unchecked item
per option of the bound select (`createItem($(this).text(), $(this).val())`),
then run `updateCurrentlySelected`. -/
def Widget.update (cfg : WidgetCfg) (opts : List (String × String))
    (w : Widget) : Widget :=
  Widget.updateCurrentlySelected cfg
    { w with items := opts.map (fun o => { name := o.1, value := o.2, checked := false }) }

/-- Set the checked state of the first item with the given name
(the `each` loop of `that.check` breaks after the first match). -/
def setFirstChecked (nm : String) (c : Bool) : List CheckItem → List CheckItem
  | [] => []
  | it :: l =>
    if it.name = nm then { it with checked := c } :: l
    else it :: setFirstChecked nm c l

/-- Embedding of `that.check`: set a named checkbox and recompute the
selection summary, without firing apply. -/
def Widget.check (cfg : WidgetCfg) (nm : String) (c : Bool) (w : Widget) : Widget :=
  Widget.updateCurrentlySelected cfg { w with items := setFirstChecked nm c w.items }

/-- Toggle the checked state of the first item with the given name (a DOM
click on that checkbox). -/
def toggleFirst (nm : String) : List CheckItem → List CheckItem
  | [] => []
  | it :: l =>
    if it.name = nm then { it with checked := !it.checked } :: l
    else it :: toggleFirst nm l

/-- A user click on a checkbox: the DOM toggles its checked state, then the
click handler runs `updateCurrentlySelected`. -/
def Widget.clickItem (cfg : WidgetCfg) (nm : String) (w : Widget) : Widget :=
  Widget.updateCurrentlySelected cfg { w with items := toggleFirst nm w.items }

/-- Widget state right after construction: `$_submit.data("selected", "")`
holds the empty string, the anchor shows the select name, nothing is
expanded, and `that.update()` has populated the checkbox list from the
options. -/
def initWidget (cfg : WidgetCfg) (opts : List (String × String)) : Widget :=
  Widget.update cfg opts
    { items := [], expanded := false, currentId := 0, currentlySelected := [],
      submitData := .str "", anchorText := cfg.select_name, nextId := 0,
      applyLog := [] }

/-- User events the widget reacts to: a click on the anchor (open or
close-and-commit), a click on the submit button (commit), and a click on a
named checkbox. -/
inductive WEvent where
  | anchorClick
  | submitClick
  | itemClick (nm : String)
deriving DecidableEq, Repr

/-- Dispatch of one user event: the anchor click handler and the submit
click handler both call `apply()`; a checkbox click toggles the box and
runs `updateCurrentlySelected`. -/
def Widget.step (cfg : WidgetCfg) (w : Widget) : WEvent → Widget
  | .anchorClick => Widget.apply w
  | .submitClick => Widget.apply w
  | .itemClick nm => Widget.clickItem cfg nm w

/-- Run a sequence of user events against the widget. -/
def Widget.run (cfg : WidgetCfg) (w : Widget) (evs : List WEvent) : Widget :=
  evs.foldl (Widget.step cfg) w

/-- Widget configuration fixture (select name `Arch`, default conjunction). -/
def cfgArch : WidgetCfg := { select_name := "Arch", conjunctor := " or" }

/-- Widget fixture built over two options, `arm` and `riscv`. -/
def wArch : Widget := initWidget cfgArch [("arm", "arm"), ("riscv", "riscv")]

/-- Event sequence: open, check `arm`, commit; then open, check `riscv`,
uncheck `riscv` again, commit.  The checked set at the second commit is the
same `{arm}` that the first commit already applied. -/
def seqRecheck : List WEvent :=
  [.anchorClick, .itemClick "arm", .anchorClick,
   .anchorClick, .itemClick "riscv", .itemClick "riscv", .anchorClick]

/-- C5 (violated by the code): committing twice with the same checked set
fires `onApply` TWICE.  Checking a box and unchecking it again between the
commits makes `updateCurrentlySelected` allocate a fresh array, and the
guard `currently_selected != $_submit.data("selected")` compares the two
arrays by reference, so the second commit re-fires `onApply` with contents
identical to the previously applied selection. -/
theorem apply_refires_without_change :
    (Widget.run cfgArch wArch seqRecheck).applyLog = [["arm"], ["arm"]] := by
  decide

/-- Semantic content of the bound form control (`params.selector`): whether
the element is a form, whether it contains a select, the select's `name`
attribute, its option list (display text and value), the number of submit
input children of the form, and whether the select is hidden (a style
change only, not a removal). -/
structure NativeForm where
  isForm : Bool
  selectPresent : Bool
  selectName : Option String
  options : List (String × String)
  submitInputCount : Nat
  selectHidden : Bool
deriving DecidableEq, Repr

/-- JavaScript `s.charAt(0).toUpperCase() + s.substr(1)`. -/
def capitalizeJS (s : String) : String :=
  match s.data with
  | [] => ""
  | c :: cs => String.mk (c.toUpper :: cs)

/-- Embedding of the `checkbox_select` constructor.  The validation block
logs and returns `false` (here `none`) when the selector is missing or not
a string, the element is not a form, it contains no select, the select has
no options, or the select has no `name` attribute.  On success it builds
the widget from the option list, REMOVES the form's submit inputs
(`$(params.selector).find('input[type=submit]').remove()`), inserts the
widget markup and hides the native select (`$_native_select.hide()`). -/
def checkbox_select (selectorGiven : Bool) (conjunctor : Option String)
    (form : NativeForm) : Option (NativeForm × Widget) :=
  let error := !selectorGiven || !form.isForm || !form.selectPresent ||
    decide (form.options.length < 1) || decide (form.selectName = none)
  if error then none
  else
    let nm := capitalizeJS (form.selectName.getD "")
    let cfg : WidgetCfg := { select_name := nm, conjunctor := conjunctor.getD " or" }
    let w := initWidget cfg form.options
    some ({ form with submitInputCount := 0, selectHidden := true }, w)

/-- Well-formed bound control fixture: a form with a named select, two
options and one submit input. -/
def formFix : NativeForm :=
  { isForm := true, selectPresent := true, selectName := some "arch",
    options := [("arm", "arm"), ("riscv", "riscv")], submitInputCount := 1,
    selectHidden := false }

/-- C9 counterexample: on this well-formed control the construction
succeeds, and the form's submit input child is REMOVED (its count drops
from 1 to 0) instead of being hidden, so construction does permanently
mutate the bound control's content. -/
theorem checkbox_select_removes_submit_cex :
    formFix.submitInputCount = 1 ∧
    (checkbox_select true (some " or") formFix).map
      (fun r => r.1.submitInputCount) = some 0 := by
  exact ⟨rfl, rfl⟩

/-- Operations available on a constructed widget instance: the DOM events
it handles (anchor click, submit click, checkbox click), the public method
`that.update()` (which re-reads the option list of the bound native select)
and the public method `that.check(name, checked)`.  These are all the code
paths that run after construction. -/
inductive WOp where
  | ev (e : WEvent)
  | update
  | check (nm : String) (c : Bool)
deriving DecidableEq, Repr

/-- One post-construction operation on the pair (bound control, widget).
As in the source, no operation writes to the bound control: the event
handlers and `that.check` work entirely on the widget's own `$_ul` markup,
and `that.update` only READS `$_native_select.find("option")`. -/
def sysStep (cfg : WidgetCfg) (s : NativeForm × Widget) : WOp → NativeForm × Widget
  | .ev e => (s.1, Widget.step cfg s.2 e)
  | .update => (s.1, Widget.update cfg s.1.options s.2)
  | .check nm c => (s.1, Widget.check cfg nm c s.2)

/-- Run a sequence of post-construction operations on the pair (bound
control, widget). -/
def sysRun (cfg : WidgetCfg) (s : NativeForm × Widget) (ops : List WOp) :
    NativeForm × Widget :=
  ops.foldl (sysStep cfg) s

/-- No sequence of widget operations changes the bound control. -/
theorem sysRun_fst (cfg : WidgetCfg) :
    ∀ (ops : List WOp) (s : NativeForm × Widget), (sysRun cfg s ops).1 = s.1 := by
  intro ops
  induction ops with
  | nil => intro s; rfl
  | cons op ops ih =>
    intro s
    show (sysRun cfg (sysStep cfg s op) ops).1 = s.1
    rw [ih]
    cases op <;> rfl

/-- C9 amended: for every successfully constructed widget, construction
leaves the select element, its `name` attribute and its option list
unchanged and hides (never removes) the native select, and every sequence
of widget operations after construction (update, check, checkbox clicks,
open/close/submit commits) leaves the bound control entirely unchanged;
however, construction REMOVES the submit input children of the bound form
instead of hiding them. -/
theorem checkbox_select_form_effect (sg : Bool) (cj : Option String)
    (f f' : NativeForm) (w' : Widget)
    (h : checkbox_select sg cj f = some (f', w'))
    (cfg : WidgetCfg) (ops : List WOp) :
    f'.isForm = f.isForm ∧ f'.selectPresent = f.selectPresent ∧
    f'.selectName = f.selectName ∧ f'.options = f.options ∧
    f'.selectHidden = true ∧ f'.submitInputCount = 0 ∧
    (sysRun cfg (f', w') ops).1 = f' := by
  by_cases he : (!sg || !f.isForm || !f.selectPresent ||
      decide (f.options.length < 1) || decide (f.selectName = none)) = true
  · exfalso
    simp only [checkbox_select] at h
    rw [if_pos he] at h
    exact Option.noConfusion h
  · simp only [checkbox_select] at h
    rw [if_neg he] at h
    have hp := Option.some.inj h
    have hf : f' = { f with submitInputCount := 0, selectHidden := true } :=
      (congrArg Prod.fst hp).symm
    subst hf
    exact ⟨rfl, rfl, rfl, rfl, rfl, rfl, sysRun_fst cfg ops _⟩

/-- Widget configuration produced by the constructor on the fixture control
(capitalized select name, explicit conjunction). -/
def cfgFix : WidgetCfg :=
  { select_name := capitalizeJS "arch", conjunctor := " or" }

/-- The fixture control after construction: submit input removed, select
hidden, everything else unchanged. -/
def formFixAfter : NativeForm :=
  { formFix with submitInputCount := 0, selectHidden := true }

/-- The widget the constructor builds over the fixture control. -/
def wFixAfter : Widget := initWidget cfgFix formFix.options

/-- Operation sequence exercising every kind of widget operation: a
rebuild, a programmatic check, and an open / checkbox click / close-commit
/ submit-commit round. -/
def opsFix : List WOp :=
  [.update, .check "arm" true, .ev .anchorClick, .ev (.itemClick "arm"),
   .ev .anchorClick, .ev .submitClick]

/-- Witness for C9 amended at the fixture control: the select, its name and
its options survive construction unchanged, the select ends hidden, the
submit inputs end removed, and the exercised operation sequence leaves the
bound control untouched. -/
theorem checkbox_select_form_effect_witness :
    formFixAfter.isForm = formFix.isForm ∧
    formFixAfter.selectPresent = formFix.selectPresent ∧
    formFixAfter.selectName = formFix.selectName ∧
    formFixAfter.options = formFix.options ∧
    formFixAfter.selectHidden = true ∧
    formFixAfter.submitInputCount = 0 ∧
    (sysRun cfgFix (formFixAfter, wFixAfter) opsFix).1 = formFixAfter :=
  checkbox_select_form_effect true (some " or") formFix formFixAfter wFixAfter
    (by decide) cfgFix opsFix
